import Mathlib

/-!
Shallow embedding of two Python batch scripts: a patient-data cleaner
(src/1_patient_data_cleaner.py) and a medication dosage calculator
(src/2_med_dosage_calculator.py).

Python values appearing in the JSON records are modelled by the inductive
type `PVal`; floats are modelled as rationals (standard JSON has no NaN or
infinity, so those are out of scope of the model). A Python dict is
modelled as an association list with first-match lookup; assignment to an
existing key replaces the value in place, assignment to a fresh key
appends, matching insertion-ordered Python dicts.
-/

attribute [local semireducible] Rat.mul Rat.add Rat.sub Rat.inv Rat.ofScientific

/-- A Python/JSON value as it appears in the records of the two scripts.
Floats are modelled as rationals; lists of strings cover the `allergies`
and `warnings` fields. -/
inductive PVal where
  | vNull : PVal
  | vBool (b : Bool) : PVal
  | vInt (n : Int) : PVal
  | vFloat (q : ℚ) : PVal
  | vStr (s : String) : PVal
  | vListStr (l : List String) : PVal
deriving DecidableEq

/-- A Python dict, modelled as an insertion-ordered association list. -/
abbrev Record := List (String × PVal)

/-- `d.get(k)` on a dict: first binding of the key, if any. -/
def rget : Record → String → Option PVal
  | [], _ => none
  | (k1, v) :: rest, k => if k1 = k then some v else rget rest k

/-- `d[k] = v` on a dict: replace the binding in place if the key exists,
otherwise append it at the end. -/
def rset : Record → String → PVal → Record
  | [], k, v => [(k, v)]
  | (k1, v1) :: rest, k, v =>
      if k1 = k then (k1, v) :: rest else (k1, v1) :: rset rest k v

/-- Python truthiness (`not x` is the negation of this), restricted to the
modelled values. -/
def PVal.truthy : PVal → Bool
  | .vNull => false
  | .vBool b => b
  | .vInt n => n != 0
  | .vFloat q => q != 0
  | .vStr s => s != ""
  | .vListStr l => !l.isEmpty

/-- `isinstance(x, (int, float))` together with the numeric value: Python
bools are ints, so they count as numbers. Returns `none` for non-numbers. -/
def asNumber : PVal → Option ℚ
  | .vBool b => some (if b then 1 else 0)
  | .vInt n => some (n : ℚ)
  | .vFloat q => some q
  | _ => none

/-- `type(x).__name__` for the modelled values. -/
def pyTypeName : PVal → String
  | .vNull => "NoneType"
  | .vBool _ => "bool"
  | .vInt _ => "int"
  | .vFloat _ => "float"
  | .vStr _ => "str"
  | .vListStr _ => "list"

/-- Is the value a Python bool? (`isinstance(x, bool)`). -/
def PVal.isBool : PVal → Bool
  | .vBool _ => true
  | _ => false

/-- DOSAGE_FACTORS from src/2_med_dosage_calculator.py, lines 63-76:
mg-per-kg dosing factor for each known medication. -/
def DOSAGE_FACTORS : List (String × ℚ) :=
  [("epinephrine", 1/100),
   ("amiodarone", 5),
   ("lorazepam", 5/100),
   ("fentanyl", 1/1000),
   ("lisinopril", 1/2),
   ("metformin", 10),
   ("oseltamivir", 5/2),
   ("sumatriptan", 1),
   ("albuterol", 1/10),
   ("ibuprofen", 5),
   ("sertraline", 3/2),
   ("levothyroxine", 2/100)]

/-- LOADING_DOSE_MEDICATIONS from src/2_med_dosage_calculator.py,
lines 80-84; note the source spells the third entry "fentynal". -/
def LOADING_DOSE_MEDICATIONS : List String :=
  ["amiodarone", "lorazepam", "fentynal"]

/-- `DOSAGE_FACTORS.get(medication, 0)` (line 137): dict lookup with
default 0; a non-string key is never in the dict, hence 0. -/
def dosageFactor : PVal → ℚ
  | .vStr s => (((DOSAGE_FACTORS.find? (fun e => e.1 == s)).map (·.2)).getD 0)
  | _ => 0

/-- `medication in LOADING_DOSE_MEDICATIONS` (line 158): list membership;
a non-string is never equal to the string entries. -/
def isLoadingMed : PVal → Bool
  | .vStr s => LOADING_DOSE_MEDICATIONS.contains s
  | _ => false

/-- The medication-keyed warnings of lines 171-178. -/
def warningsFor (med : PVal) : List String :=
  if med = .vStr "epinephrine" then ["Monitor for arrhythmias"]
  else if med = .vStr "amiodarone" then ["Monitor for hypotension"]
  else if med = .vStr "fentanyl" then ["Monitor for respiratory depression"]
  else []

/-- The validation errors raised by calculate_dosage (lines 126, 132, 149,
151). The first three f-strings interpolate the offending record, which the
model carries directly; the fourth interpolates only the type name of the
received value. -/
inductive DosageError where
  | invalidWeight (patient : Record) : DosageError
  | missingMedication (patient : Record) : DosageError
  | missingIsFirstDose (patient : Record) : DosageError
  | invalidIsFirstDose (typeName : String) : DosageError
deriving DecidableEq

/-- Lines 142-181 of calculate_dosage, after validation has passed:
base dosage, the loading-dose branch, and the warnings, written into a
copy of the record. `wq` is the numeric weight and `b` the boolean value
of is_first_dose. -/
def dosageFields (patient : Record) (wq : ℚ) (med : PVal) (b : Bool) : Record :=
  let base := wq * dosageFactor med
  let applied := b && isLoadingMed med
  let finalD := if applied then base * 2 else base
  let r := rset patient "base_dosage" (.vFloat base)
  let r := rset r "loading_dose_applied" (.vBool applied)
  let r := rset r "final_dosage" (.vFloat finalD)
  rset r "warnings" (.vListStr (warningsFor med))

/-- calculate_dosage from src/2_med_dosage_calculator.py, lines 109-183.
`patient.get(k)` yields Python None both when the key is absent and when
the stored value is null, hence the `.getD .vNull`. The weight check of
line 125 (`weight is None or not isinstance(weight, (int, float)) or
weight <= 0`) is the match on `asNumber` plus the `wq <= 0` test; the
is_first_dose checks of lines 147-151 read the key with default False,
reject null as missing and any non-bool as invalid. -/
def calculate_dosage (patient : Record) : Except DosageError Record :=
  match asNumber ((rget patient "weight").getD .vNull) with
  | none => .error (.invalidWeight patient)
  | some wq =>
    if wq ≤ 0 then .error (.invalidWeight patient)
    else
      let med := (rget patient "medication").getD .vNull
      if med.truthy = false then .error (.missingMedication patient)
      else
        match (rget patient "is_first_dose").getD (.vBool false) with
        | .vNull => .error (.missingIsFirstDose patient)
        | .vBool b => .ok (dosageFields patient wq med b)
        | other => .error (.invalidIsFirstDose (pyTypeName other))

/-- The value of final_dosage on a record produced by calculate_dosage,
read back as a number (it is always a float there). -/
def finalDosageQ (r : Record) : ℚ :=
  match rget r "final_dosage" with
  | some (.vFloat q) => q
  | _ => 0

/-- The loop of calculate_all_dosages (lines 199-213). Each record is
transformed and appended; the total is then increased once inside the
`if final_dosage in patient_with_dosage` check of line 208 and a second
time by the unconditional line 212. -/
def calcAllLoop : List Record → List Record → ℚ → Except DosageError (List Record × ℚ)
  | [], acc, total => .ok (acc.reverse, total)
  | p :: rest, acc, total =>
    match calculate_dosage p with
    | .error e => .error e
    | .ok pwd =>
      let t1 := if (rget pwd "final_dosage").isSome then total + finalDosageQ pwd else total
      let t2 := t1 + finalDosageQ pwd
      calcAllLoop rest (pwd :: acc) t2

/-- calculate_all_dosages from src/2_med_dosage_calculator.py,
lines 185-215. -/
def calculate_all_dosages (patients : List Record) : Except DosageError (List Record × ℚ) :=
  calcAllLoop patients [] 0

/-- Validation predicate of line 125: weight is present, a number, and
positive. -/
def weightAccepted (p : Record) : Bool :=
  match asNumber ((rget p "weight").getD .vNull) with
  | none => false
  | some wq => decide (0 < wq)

/-- Validation predicate of line 131: medication present and truthy. -/
def medicationTruthy (p : Record) : Bool :=
  ((rget p "medication").getD .vNull).truthy

/-- The medication value as calculate_dosage reads it. -/
def medValue (p : Record) : PVal :=
  (rget p "medication").getD .vNull

/-- The is_first_dose value as calculate_dosage reads it: missing keys
default to False (line 147). -/
def ifdValue (p : Record) : PVal :=
  (rget p "is_first_dose").getD (.vBool false)

/-- The four field names that calculate_dosage writes into the copy of
the input record. -/
def derivedKeys : List String :=
  ["base_dosage", "loading_dose_applied", "final_dosage", "warnings"]

/-- The exceptions the cleaner pipeline can raise: a missing dict key, a
wrong-typed value (AttributeError/TypeError), or a ValueError from int(). -/
inductive CleanError where
  | keyError (k : String) : CleanError
  | typeError (what : String) : CleanError
  | valueError (what : String) : CleanError
deriving DecidableEq

/-- str.title() on ASCII text: an alphabetic character is uppercased when
the preceding character is not alphabetic and lowercased otherwise. -/
def titleChars : List Char → Bool → List Char
  | [], _ => []
  | c :: cs, prevAlpha =>
      (if c.isAlpha then (if prevAlpha then c.toLower else c.toUpper) else c)
        :: titleChars cs c.isAlpha

/-- str.title() as used on the name field (line 84). -/
def pyTitle (s : String) : String :=
  ⟨titleChars s.data false⟩

/-- A nonempty all-digit character list read as a natural number;
`none` otherwise. -/
def parseDigits (cs : List Char) : Option Nat :=
  if cs.isEmpty then none
  else if cs.all Char.isDigit then
    some (cs.foldl (fun acc c => acc * 10 + (c.toNat - 48)) 0)
  else none

/-- int(s) on an ASCII string: strip surrounding whitespace, allow one
leading sign, then decimal digits; anything else raises ValueError. -/
def pyIntOfStr (s : String) : Option Int :=
  let cs := ((s.data.dropWhile Char.isWhitespace).reverse.dropWhile Char.isWhitespace).reverse
  match cs with
  | '-' :: rest => (parseDigits rest).map (fun n => -(n : Int))
  | '+' :: rest => (parseDigits rest).map (fun n => (n : Int))
  | _ => (parseDigits cs).map (fun n => (n : Int))

/-- Truncation of a rational toward zero, as int() does on a float. -/
def truncQ (q : ℚ) : Int :=
  if 0 ≤ q then ⌊q⌋ else ⌈q⌉

/-- The builtin int(x) applied to the age value (line 91): ints pass
through, bools become 0/1, floats truncate toward zero, strings are
parsed or raise ValueError, and null/lists raise TypeError. -/
def pyInt : PVal → Except CleanError Int
  | .vInt n => .ok n
  | .vBool b => .ok (if b then 1 else 0)
  | .vFloat q => .ok (truncQ q)
  | .vStr s =>
      match pyIntOfStr s with
      | some n => .ok n
      | none => .error (.valueError "invalid literal for int")
  | .vNull => .error (.typeError "int of NoneType")
  | .vListStr _ => .error (.typeError "int of list")

/-- The per-record mutation of lines 84-91 of clean_patient_data:
title-case the name in place (KeyError when absent, AttributeError when
not a string), then read age with default 0, zero it when it differs from
itself (the NaN check of line 89; never on modelled values), and store
int(age). -/
def cleanStep (patient : Record) : Except CleanError Record :=
  match rget patient "name" with
  | none => .error (.keyError "name")
  | some (.vStr s) =>
      let patient := rset patient "name" (.vStr (pyTitle s))
      let age := (rget patient "age").getD (.vInt 0)
      let age := if age ≠ age then PVal.vInt 0 else age
      match pyInt age with
      | .error e => .error e
      | .ok n => .ok (rset patient "age" (.vInt n))
  | some _ => .error (.typeError "title on non-string")

/-- The age stored by cleanStep, as compared on line 103; after cleanStep
the age field is always an int. -/
def storedAge (p : Record) : Int :=
  match rget p "age" with
  | some (.vInt n) => n
  | _ => 0

/-- The loop of clean_patient_data (lines 82-106), accumulating the
output list in reverse. Line 95 creates `seen` afresh inside the loop, so
the membership test of line 97 is against the empty set and every record
is appended there; line 103 then appends the record a second time when
its age is at least 18. -/
def cleanLoop : List Record → List Record → Except CleanError (List Record)
  | [], acc => .ok acc.reverse
  | p :: rest, acc =>
    match cleanStep p with
    | .error e => .error e
    | .ok p1 =>
      let seen : List (Option PVal × Option PVal × Option PVal) := []
      let key := (rget p1 "name", rget p1 "age", rget p1 "diagnosis")
      let acc1 := if key ∈ seen then acc else p1 :: acc
      let acc2 := if 18 ≤ storedAge p1 then p1 :: acc1 else acc1
      cleanLoop rest acc2

/-- clean_patient_data from src/1_patient_data_cleaner.py, lines 66-113,
including the redundant empty-list return of lines 109-111. -/
def clean_patient_data (patients : List Record) : Except CleanError (List Record) :=
  match cleanLoop patients [] with
  | .error e => .error e
  | .ok cleaned => if cleaned.isEmpty then .ok [] else .ok cleaned

/-! Helper lemmas about the record operations and the dosage calculator. -/

theorem rget_rset (r : Record) (k q : String) (v : PVal) :
    rget (rset r k v) q = if k = q then some v else rget r q := by
  induction r with
  | nil => simp [rget, rset]
  | cons hd tl ih =>
    obtain ⟨k2, v2⟩ := hd
    by_cases h : k2 = k
    · subst h
      simp only [rset, if_pos rfl, rget]
      by_cases h2 : k2 = q <;> simp [h2]
    · simp only [rset, if_neg h, rget]
      by_cases h2 : k2 = q
      · subst h2
        have hne : ¬ k = k2 := fun hk => h hk.symm
        simp [hne]
      · simp [h2, ih]

theorem rget_dosageFields_base (p : Record) (wq : ℚ) (med : PVal) (b : Bool) :
    rget (dosageFields p wq med b) "base_dosage"
      = some (.vFloat (wq * dosageFactor med)) := by
  simp [dosageFields, rget_rset]

theorem rget_dosageFields_applied (p : Record) (wq : ℚ) (med : PVal) (b : Bool) :
    rget (dosageFields p wq med b) "loading_dose_applied"
      = some (.vBool (b && isLoadingMed med)) := by
  simp [dosageFields, rget_rset]

theorem rget_dosageFields_final (p : Record) (wq : ℚ) (med : PVal) (b : Bool) :
    rget (dosageFields p wq med b) "final_dosage"
      = some (.vFloat (if b && isLoadingMed med then wq * dosageFactor med * 2
          else wq * dosageFactor med)) := by
  simp [dosageFields, rget_rset]

theorem rget_dosageFields_warnings (p : Record) (wq : ℚ) (med : PVal) (b : Bool) :
    rget (dosageFields p wq med b) "warnings"
      = some (.vListStr (warningsFor med)) := by
  simp [dosageFields, rget_rset]

theorem rget_dosageFields_frame (p : Record) (wq : ℚ) (med : PVal) (b : Bool)
    (k : String) (hk : k ∉ derivedKeys) :
    rget (dosageFields p wq med b) k = rget p k := by
  simp only [derivedKeys, List.mem_cons, List.not_mem_nil, or_false, not_or] at hk
  obtain ⟨h1, h2, h3, h4⟩ := hk
  simp [dosageFields, rget_rset, Ne.symm h1, Ne.symm h2, Ne.symm h3, Ne.symm h4]

theorem dosageFactor_nonneg (med : PVal) : 0 ≤ dosageFactor med := by
  cases med <;> simp [dosageFactor]
  case vStr s =>
    cases hf : DOSAGE_FACTORS.find? (fun e => e.1 == s) with
    | none => simp
    | some e =>
      have hmem : e ∈ DOSAGE_FACTORS := List.mem_of_find?_eq_some hf
      have hall : ∀ x ∈ DOSAGE_FACTORS, 0 ≤ x.2 := by decide
      simpa using hall e hmem

theorem calculate_dosage_ok_iff (p r : Record) :
    calculate_dosage p = .ok r ↔
      ∃ wq b, asNumber ((rget p "weight").getD .vNull) = some wq ∧ 0 < wq ∧
        medicationTruthy p = true ∧ ifdValue p = .vBool b ∧
        r = dosageFields p wq (medValue p) b := by
  unfold calculate_dosage
  cases hw : asNumber ((rget p "weight").getD .vNull) with
  | none => simp [hw]
  | some wq0 =>
    simp only [hw, Option.some.injEq]
    by_cases hle : wq0 ≤ 0
    · have hnlt : ¬ 0 < wq0 := not_lt.mpr hle
      simp only [if_pos hle]
      constructor
      · intro h
        cases h
      · rintro ⟨wq, b, rfl, hpos, hrest⟩
        exact absurd hpos hnlt
    · have hpos : 0 < wq0 := not_le.mp hle
      simp only [if_neg hle]
      by_cases hm : ((rget p "medication").getD PVal.vNull).truthy
      · rw [if_neg (by simp [hm])]
        cases hf : (rget p "is_first_dose").getD (.vBool false) with
        | vBool b0 =>
          constructor
          · intro h
            cases h
            refine ⟨wq0, b0, rfl, hpos, ?_, ?_, ?_⟩
            · simpa [medicationTruthy] using hm
            · simp [ifdValue, hf]
            · rfl
          · rintro ⟨wq, b, hwq, hpos2, htr, hifd, rfl⟩
            cases hwq
            rw [ifdValue, hf] at hifd
            cases hifd
            rfl
        | vNull =>
          simp [ifdValue, hf]
        | vInt n =>
          simp [ifdValue, hf]
        | vFloat q =>
          simp [ifdValue, hf]
        | vStr s =>
          simp [ifdValue, hf]
        | vListStr l =>
          simp [ifdValue, hf]
      · rw [if_pos (by simp [Bool.not_eq_true] at hm; exact hm)]
        simp [medicationTruthy, hm]

/-! Concrete input records used by the claim theorems. -/

/-- A valid dosage record: 70 kg, epinephrine, not a first dose. -/
def c1Rec : Record :=
  [("name", .vStr "John Smith"), ("weight", .vFloat 70),
   ("medication", .vStr "epinephrine"), ("is_first_dose", .vBool false)]

/-- The output calculate_dosage produces for c1Rec. -/
def c1Out : Record :=
  c1Rec ++ [("base_dosage", .vFloat (7/10)), ("loading_dose_applied", .vBool false),
            ("final_dosage", .vFloat (7/10)), ("warnings", .vListStr ["Monitor for arrhythmias"])]

/-- Claim C1: for a batch of valid dosage records, calculate_all_dosages is
claimed to return a total equal to the sum of the final_dosage values, each
contributing exactly once. The code adds each final_dosage twice (the
conditional line 208 and the unconditional line 212), so for the single
record c1Rec with final_dosage 0.7 it returns total 1.4, twice the sum. -/
theorem c1_total_double_counted :
    calculate_dosage c1Rec = .ok c1Out ∧ finalDosageQ c1Out = 7/10 ∧
    calculate_all_dosages [c1Rec] = .ok ([c1Out], 7/5) := by
  refine ⟨by rfl, by decide, by rfl⟩

def c2Rec : Record :=
  [("name", .vStr "kid"), ("age", .vInt 10), ("diagnosis", .vStr "flu")]

def c2Out : Record :=
  [("name", .vStr "Kid"), ("age", .vInt 10), ("diagnosis", .vStr "flu")]

/-- Claim C2: clean_patient_data is claimed to output only records with
age at least 18. Because `seen` is re-created empty on every iteration
(line 95), the dedup branch appends every record unconditionally, so the
under-18 record c2Rec appears in the output with age 10. -/
theorem c2_minor_in_output :
    clean_patient_data [c2Rec] = .ok [c2Out] ∧ storedAge c2Out = 10 ∧
    storedAge c2Out < 18 := by
  refine ⟨by rfl, by decide, by decide⟩

def c3Rec : Record :=
  [("name", .vStr "john smith"), ("age", .vInt 32), ("diagnosis", .vStr "flu")]

def c3Out : Record :=
  [("name", .vStr "John Smith"), ("age", .vInt 32), ("diagnosis", .vStr "flu")]

/-- Claim C3: two input records that agree on (normalized name, coerced
age, diagnosis) are claimed to yield exactly one output record. The code
appends every record once in the dedup branch (seen is always empty) and
a second time in the age branch when age >= 18, so two identical adult
records yield four output records, not one. -/
theorem c3_duplicates_kept :
    clean_patient_data [c3Rec, c3Rec] = .ok [c3Out, c3Out, c3Out, c3Out] := by
  rfl

def c6Rec : Record :=
  [("name", .vStr "bob"), ("age", .vStr "twelve")]

/-- Claim C6: age coercion is claimed never to raise, treating any value
that is not a valid number representation as 0. The code only guards
against NaN (line 89) before calling int(age), so a non-numeric string
age raises ValueError and the whole pipeline fails. -/
theorem c6_nonnumeric_age_raises :
    clean_patient_data [c6Rec] = .error (.valueError "invalid literal for int") := by
  rfl

def c4Rec : Record :=
  [("name", .vStr "John Smith"), ("weight", .vFloat 70),
   ("medication", .vStr "epinephrine")]

def c4Out : Record :=
  c4Rec ++ [("base_dosage", .vFloat (7/10)), ("loading_dose_applied", .vBool false),
            ("final_dosage", .vFloat (7/10)), ("warnings", .vListStr ["Monitor for arrhythmias"])]

/-- Claim C4 counterexample: the claim says a record with no is_first_dose
key is rejected by validation, but calculate_dosage reads the key with
default False (line 147) and accepts the record c4Rec, which has no
is_first_dose key at all. -/
theorem c4_missing_ifd_accepted :
    rget c4Rec "is_first_dose" = none ∧ calculate_dosage c4Rec = .ok c4Out := by
  refine ⟨by decide, by rfl⟩

/-- An empty record: weight is missing, so validation fails first on
weight. -/
def emptyRec : Record := []

/-- Claim C4 (amended): calculate_dosage validates in order. It fails on
weight, naming the record, exactly when weight is missing, not a number,
or not positive; it fails on medication, naming the record, exactly when
weight passed and medication is missing or falsy; it fails with the
missing-is_first_dose error, naming the record, exactly when the earlier
checks passed and the is_first_dose value is null; it fails with the
invalid-is_first_dose error, naming only the received type, exactly when
the earlier checks passed and the value read for is_first_dose (default
False when the key is absent) is neither null nor a boolean; and it
succeeds exactly when all checks pass. A missing is_first_dose key is
therefore defaulted to False and accepted, not rejected. -/
theorem c4_validation_order (p : Record) :
    (calculate_dosage p = .error (.invalidWeight p) ↔ weightAccepted p = false)
    ∧ (calculate_dosage p = .error (.missingMedication p) ↔
        (weightAccepted p = true ∧ medicationTruthy p = false))
    ∧ (calculate_dosage p = .error (.missingIsFirstDose p) ↔
        (weightAccepted p = true ∧ medicationTruthy p = true ∧ ifdValue p = .vNull))
    ∧ (∀ t, calculate_dosage p = .error (.invalidIsFirstDose t) ↔
        (weightAccepted p = true ∧ medicationTruthy p = true ∧ ifdValue p ≠ .vNull
          ∧ (ifdValue p).isBool = false ∧ pyTypeName (ifdValue p) = t))
    ∧ ((∃ r, calculate_dosage p = .ok r) ↔
        (weightAccepted p = true ∧ medicationTruthy p = true ∧ (ifdValue p).isBool = true)) := by
  unfold calculate_dosage weightAccepted medicationTruthy ifdValue
  cases hw : asNumber ((rget p "weight").getD .vNull) with
  | none => simp [hw]
  | some wq0 =>
    by_cases hle : wq0 ≤ 0
    · have hnlt : ¬ (0 : ℚ) < wq0 := not_lt.mpr hle
      simp [hle, hnlt]
    · have hpos : (0 : ℚ) < wq0 := not_le.mp hle
      simp only [if_neg hle, decide_eq_true_eq, decide_eq_false_iff_not]
      by_cases hm : ((rget p "medication").getD PVal.vNull).truthy
      · rw [if_neg (by simp [hm])]
        cases hf : (rget p "is_first_dose").getD (.vBool false) with
        | vNull => simp [hf, hm, hpos, PVal.isBool]
        | vBool b0 => simp [hf, hm, hpos, PVal.isBool, pyTypeName]
        | vInt n => simp [hf, hm, hpos, PVal.isBool, pyTypeName, eq_comm]
        | vFloat q => simp [hf, hm, hpos, PVal.isBool, pyTypeName, eq_comm]
        | vStr s => simp [hf, hm, hpos, PVal.isBool, pyTypeName, eq_comm]
        | vListStr l => simp [hf, hm, hpos, PVal.isBool, pyTypeName, eq_comm]
      · rw [if_pos (by simp [Bool.not_eq_true] at hm; exact hm)]
        simp [hm, hpos]

/-- Witness for c4_validation_order at concrete inputs: the empty record
fails the weight check, and c4Rec (no is_first_dose key) succeeds. -/
theorem c4_validation_order_witness :
    (weightAccepted emptyRec = false ∧
      calculate_dosage emptyRec = .error (.invalidWeight emptyRec)) ∧
    (weightAccepted c4Rec = true ∧ medicationTruthy c4Rec = true ∧
      (ifdValue c4Rec).isBool = true ∧ ∃ r, calculate_dosage c4Rec = .ok r) :=
  ⟨⟨by decide, ((c4_validation_order emptyRec).1).mpr (by decide)⟩,
   ⟨by decide, by decide, by decide,
    ((c4_validation_order c4Rec).2.2.2.2).mpr ⟨by decide, by decide, by decide⟩⟩⟩

def c5Rec : Record :=
  [("name", .vStr "John Smith"), ("weight", .vFloat 70),
   ("medication", .vStr "amiodarone"), ("is_first_dose", .vBool true)]

def c5Out : Record :=
  c5Rec ++ [("base_dosage", .vFloat 350), ("loading_dose_applied", .vBool true),
            ("final_dosage", .vFloat 700), ("warnings", .vListStr ["Monitor for hypotension"])]

/-- Claim C5: on every record accepted by validation, loading_dose_applied
is true and final_dosage is base_dosage doubled exactly when is_first_dose
is true and the medication is in LOADING_DOSE_MEDICATIONS; otherwise
loading_dose_applied is false and final_dosage equals base_dosage. In
particular the 70 kg amiodarone first dose yields base 350, final 700. -/
theorem c5_loading_dose_iff :
    (∀ p r bq, calculate_dosage p = .ok r →
      rget r "base_dosage" = some (.vFloat bq) →
      ((ifdValue p = .vBool true ∧ isLoadingMed (medValue p) = true) →
        rget r "loading_dose_applied" = some (.vBool true) ∧
        rget r "final_dosage" = some (.vFloat (bq * 2))) ∧
      (¬ (ifdValue p = .vBool true ∧ isLoadingMed (medValue p) = true) →
        rget r "loading_dose_applied" = some (.vBool false) ∧
        rget r "final_dosage" = some (.vFloat bq)))
    ∧ (calculate_dosage c5Rec = .ok c5Out ∧
       rget c5Out "base_dosage" = some (.vFloat 350) ∧
       rget c5Out "final_dosage" = some (.vFloat 700) ∧
       rget c5Out "loading_dose_applied" = some (.vBool true)) := by
  constructor
  · intro p r bq hok hbase
    rw [calculate_dosage_ok_iff] at hok
    obtain ⟨wq, b, hw, hpos, hmed, hifd, rfl⟩ := hok
    rw [rget_dosageFields_base] at hbase
    simp only [Option.some.injEq, PVal.vFloat.injEq] at hbase
    subst hbase
    constructor
    · rintro ⟨h1, h2⟩
      rw [hifd] at h1
      have hb : b = true := by
        cases h1
        rfl
      subst hb
      simp [rget_dosageFields_applied, rget_dosageFields_final, h2]
    · intro hn
      have happ : (b && isLoadingMed (medValue p)) = false := by
        cases b with
        | false => simp
        | true =>
          cases hl : isLoadingMed (medValue p) with
          | false => simp
          | true => exact absurd ⟨hifd, hl⟩ hn
      simp [rget_dosageFields_applied, rget_dosageFields_final, happ]
  · exact ⟨by rfl, by decide, by decide, by decide⟩

/-- Witness for c5_loading_dose_iff: the amiodarone first dose takes the
loading branch and doubles 350 to 700. -/
theorem c5_loading_dose_iff_witness :
    rget c5Out "loading_dose_applied" = some (.vBool true) ∧
    rget c5Out "final_dosage" = some (.vFloat (350 * 2)) :=
  (c5_loading_dose_iff.1 c5Rec c5Out 350 (by rfl) (by decide)).1 ⟨by decide, by decide⟩

/-- Claim C7: a record that passes validation but whose medication is not
a key of DOSAGE_FACTORS does not raise; the factor defaults to 0, so
base_dosage and final_dosage are both 0. -/
theorem c7_unknown_medication_zero (p : Record)
    (hw : weightAccepted p = true) (hm : medicationTruthy p = true)
    (hb : (ifdValue p).isBool = true)
    (hu : ∀ e ∈ DOSAGE_FACTORS, PVal.vStr e.1 ≠ medValue p) :
    ∃ r, calculate_dosage p = .ok r ∧
      rget r "base_dosage" = some (.vFloat 0) ∧
      rget r "final_dosage" = some (.vFloat 0) := by
  unfold weightAccepted at hw
  cases hwq : asNumber ((rget p "weight").getD .vNull) with
  | none =>
    rw [hwq] at hw
    cases hw
  | some wq =>
    rw [hwq] at hw
    have hpos : (0 : ℚ) < wq := of_decide_eq_true hw
    cases hbb : ifdValue p with
    | vBool b =>
      have hfac : dosageFactor (medValue p) = 0 := by
        cases hmv : medValue p with
        | vStr s =>
          have hnone : DOSAGE_FACTORS.find? (fun e => e.1 == s) = none := by
            rw [List.find?_eq_none]
            intro e he
            have h2 := hu e he
            rw [hmv] at h2
            simp only [ne_eq, PVal.vStr.injEq] at h2
            simpa using h2
          simp [dosageFactor, hnone]
        | vNull => simp [dosageFactor]
        | vBool b2 => simp [dosageFactor]
        | vInt n => simp [dosageFactor]
        | vFloat q => simp [dosageFactor]
        | vListStr l => simp [dosageFactor]
      refine ⟨dosageFields p wq (medValue p) b, ?_, ?_, ?_⟩
      · rw [calculate_dosage_ok_iff]
        exact ⟨wq, b, hwq, hpos, hm, hbb, rfl⟩
      · rw [rget_dosageFields_base, hfac, mul_zero]
      · rw [rget_dosageFields_final, hfac, mul_zero]
        simp
    | vNull => rw [hbb] at hb; cases hb
    | vInt n => rw [hbb] at hb; cases hb
    | vFloat q => rw [hbb] at hb; cases hb
    | vStr s => rw [hbb] at hb; cases hb
    | vListStr l => rw [hbb] at hb; cases hb

def c7Rec : Record :=
  [("weight", .vFloat 50), ("medication", .vStr "aspirin"),
   ("is_first_dose", .vBool true)]

/-- Witness for c7_unknown_medication_zero: aspirin is not a key of
DOSAGE_FACTORS, yet the 50 kg record is processed, with zero dosages. -/
theorem c7_unknown_medication_zero_witness :
    ∃ r, calculate_dosage c7Rec = .ok r ∧
      rget r "base_dosage" = some (.vFloat 0) ∧
      rget r "final_dosage" = some (.vFloat 0) :=
  c7_unknown_medication_zero c7Rec (by decide) (by decide) (by decide) (by decide)

/-- Claim C8: on every record accepted by validation, the output satisfies
final_dosage >= base_dosage, and loading_dose_applied can be true only
when is_first_dose is true and the medication is a member of the fixed
loading-dose list. -/
theorem c8_dosage_invariant (p r : Record) (h : calculate_dosage p = .ok r) :
    (∃ bq fq, rget r "base_dosage" = some (.vFloat bq) ∧
      rget r "final_dosage" = some (.vFloat fq) ∧ bq ≤ fq)
    ∧ (rget r "loading_dose_applied" = some (.vBool true) →
        ifdValue p = .vBool true ∧
        ∃ s, medValue p = .vStr s ∧ s ∈ LOADING_DOSE_MEDICATIONS) := by
  rw [calculate_dosage_ok_iff] at h
  obtain ⟨wq, b, hw, hpos, hmed, hifd, rfl⟩ := h
  have hb0 : 0 ≤ wq * dosageFactor (medValue p) :=
    mul_nonneg (le_of_lt hpos) (dosageFactor_nonneg _)
  constructor
  · refine ⟨wq * dosageFactor (medValue p),
      if b && isLoadingMed (medValue p) then wq * dosageFactor (medValue p) * 2
        else wq * dosageFactor (medValue p),
      rget_dosageFields_base p wq (medValue p) b,
      rget_dosageFields_final p wq (medValue p) b, ?_⟩
    by_cases happ : (b && isLoadingMed (medValue p)) = true
    · rw [if_pos happ]
      linarith
    · rw [if_neg happ]
  · intro happl
    rw [rget_dosageFields_applied] at happl
    simp only [Option.some.injEq, PVal.vBool.injEq] at happl
    rw [Bool.and_eq_true] at happl
    obtain ⟨hb, hl⟩ := happl
    constructor
    · rw [hb] at hifd
      exact hifd
    · cases hmv : medValue p with
      | vStr s =>
        refine ⟨s, rfl, ?_⟩
        rw [hmv] at hl
        simpa [isLoadingMed, LOADING_DOSE_MEDICATIONS] using hl
      | vNull => rw [hmv] at hl; simp [isLoadingMed] at hl
      | vBool b2 => rw [hmv] at hl; simp [isLoadingMed] at hl
      | vInt n => rw [hmv] at hl; simp [isLoadingMed] at hl
      | vFloat q => rw [hmv] at hl; simp [isLoadingMed] at hl
      | vListStr l => rw [hmv] at hl; simp [isLoadingMed] at hl

def c8Rec : Record :=
  [("weight", .vFloat 70), ("medication", .vStr "amiodarone"),
   ("is_first_dose", .vBool true)]

def c8Out : Record :=
  c8Rec ++ [("base_dosage", .vFloat 350), ("loading_dose_applied", .vBool true),
            ("final_dosage", .vFloat 700), ("warnings", .vListStr ["Monitor for hypotension"])]

/-- Witness for c8_dosage_invariant at the amiodarone first dose. -/
theorem c8_dosage_invariant_witness :
    (∃ bq fq, rget c8Out "base_dosage" = some (.vFloat bq) ∧
      rget c8Out "final_dosage" = some (.vFloat fq) ∧ bq ≤ fq)
    ∧ (rget c8Out "loading_dose_applied" = some (.vBool true) →
        ifdValue c8Rec = .vBool true ∧
        ∃ s, medValue c8Rec = .vStr s ∧ s ∈ LOADING_DOSE_MEDICATIONS) :=
  c8_dosage_invariant c8Rec c8Out (by rfl)

def c9Rec : Record :=
  [("weight", .vFloat 70), ("medication", .vStr "epinephrine"),
   ("is_first_dose", .vBool false), ("base_dosage", .vFloat 99)]

def c9Out : Record :=
  [("weight", .vFloat 70), ("medication", .vStr "epinephrine"),
   ("is_first_dose", .vBool false), ("base_dosage", .vFloat (7/10)),
   ("loading_dose_applied", .vBool false), ("final_dosage", .vFloat (7/10)),
   ("warnings", .vListStr ["Monitor for arrhythmias"])]

/-- Claim C9 counterexample: the claim says every field present on the
input keeps its input value in the output, but a record arriving with a
base_dosage field of 99 has it overwritten with the computed 0.7. -/
theorem c9_input_field_overwritten :
    calculate_dosage c9Rec = .ok c9Out ∧
    rget c9Rec "base_dosage" = some (.vFloat 99) ∧
    rget c9Out "base_dosage" ≠ rget c9Rec "base_dosage" :=
  ⟨by rfl, by decide, by decide⟩

/-- Claim C9 (amended): calculate_dosage is pure in the model, so the
input record is unmodified; the output agrees with the input on every
field other than the four derived ones, and carries base_dosage,
loading_dose_applied, final_dosage and warnings of the computed shapes
(these four are overwritten if the input already had them). -/
theorem c9_output_frame (p r : Record) (h : calculate_dosage p = .ok r) :
    (∀ k, k ∉ derivedKeys → rget r k = rget p k)
    ∧ (∃ bq, rget r "base_dosage" = some (.vFloat bq))
    ∧ (∃ ap, rget r "loading_dose_applied" = some (.vBool ap))
    ∧ (∃ fq, rget r "final_dosage" = some (.vFloat fq))
    ∧ (∃ w, rget r "warnings" = some (.vListStr w)) := by
  rw [calculate_dosage_ok_iff] at h
  obtain ⟨wq, b, hw, hpos, hmed, hifd, rfl⟩ := h
  exact ⟨fun k hk => rget_dosageFields_frame p wq (medValue p) b k hk,
    ⟨_, rget_dosageFields_base p wq (medValue p) b⟩,
    ⟨_, rget_dosageFields_applied p wq (medValue p) b⟩,
    ⟨_, rget_dosageFields_final p wq (medValue p) b⟩,
    ⟨_, rget_dosageFields_warnings p wq (medValue p) b⟩⟩

/-- Witness for c9_output_frame: the weight field survives unchanged and
the warnings field is present on the output. -/
theorem c9_output_frame_witness :
    rget c9Out "weight" = rget c9Rec "weight" ∧
    (∃ w, rget c9Out "warnings" = some (.vListStr w)) :=
  ⟨(c9_output_frame c9Rec c9Out (by rfl)).1 "weight" (by decide),
   (c9_output_frame c9Rec c9Out (by rfl)).2.2.2.2⟩

/-- Claim C10: a validated record with medication exactly "fentanyl" never
takes the loading branch, because the loading list spells it "fentynal":
loading_dose_applied is false and final_dosage equals base_dosage even on
a first dose, while the fentanyl respiratory-depression warning is still
attached. -/
theorem c10_fentanyl_no_loading (p r : Record) (h : calculate_dosage p = .ok r)
    (hm : medValue p = .vStr "fentanyl") :
    rget r "loading_dose_applied" = some (.vBool false)
    ∧ rget r "final_dosage" = rget r "base_dosage"
    ∧ rget r "warnings" = some (.vListStr ["Monitor for respiratory depression"])
    ∧ "fentanyl" ∉ LOADING_DOSE_MEDICATIONS
    ∧ "fentynal" ∈ LOADING_DOSE_MEDICATIONS := by
  rw [calculate_dosage_ok_iff] at h
  obtain ⟨wq, b, hw, hpos, hmed, hifd, rfl⟩ := h
  have hl : isLoadingMed (medValue p) = false := by
    rw [hm]
    decide
  have happ : (b && isLoadingMed (medValue p)) = false := by
    rw [hl]
    simp
  refine ⟨?_, ?_, ?_, by decide, by decide⟩
  · rw [rget_dosageFields_applied, happ]
  · simp [rget_dosageFields_final, rget_dosageFields_base, happ]
  · rw [rget_dosageFields_warnings, hm]
    rfl

def c10Rec : Record :=
  [("weight", .vFloat 100), ("medication", .vStr "fentanyl"),
   ("is_first_dose", .vBool true)]

def c10Out : Record :=
  c10Rec ++ [("base_dosage", .vFloat (1/10)), ("loading_dose_applied", .vBool false),
             ("final_dosage", .vFloat (1/10)),
             ("warnings", .vListStr ["Monitor for respiratory depression"])]

/-- Witness for c10_fentanyl_no_loading: a 100 kg fentanyl first dose gets
no loading dose but does get the warning. -/
theorem c10_fentanyl_no_loading_witness :
    rget c10Out "loading_dose_applied" = some (.vBool false)
    ∧ rget c10Out "final_dosage" = rget c10Out "base_dosage"
    ∧ rget c10Out "warnings" = some (.vListStr ["Monitor for respiratory depression"])
    ∧ "fentanyl" ∉ LOADING_DOSE_MEDICATIONS
    ∧ "fentynal" ∈ LOADING_DOSE_MEDICATIONS :=
  c10_fentanyl_no_loading c10Rec c10Out (by rfl) (by decide)
